import Mathlib

/-!
Shallow embedding of the sqlite backend of the nfsdcld client tracking
daemon (utils/nfsdcld/sqlite.c).

The database `main.sqlite` holds
 - a `parameters` table with at least the key `version`,
 - a `grace` table with a single row `(current, recovery)`,
 - one table `rec-<16 hex digits of e>` per live epoch `e`, with a single
   BLOB PRIMARY KEY column `id`,
 - in schema versions 1 and 2, a legacy `clients` table.

We model the store as a record `DB`.  Buckets are an association list from
the epoch (the numeric value encoded in the table name) to the list of
client ids stored in the table; a key absent from the list models the
absence of the table, so a `CREATE TABLE` on a present key fails, and a
`SELECT`/`DELETE`/`DROP` on an absent key fails at statement preparation.
`version = none` models a database where the version query fails (no
`parameters` table or no `version` row); `grace = none` models the absence
of the `grace` table, `clients = none` the absence of the `clients` table.

The daemon's globals `current_epoch` / `recovery_epoch` (cld-internal.h)
become an explicit `MemState` threaded through the operations.

Each operation returns the C function's return value (an `Int`: `0` for
`SQLITE_OK`, `1` for `SQLITE_ERROR`, `-22` for `-EINVAL`, `-13` for
`-EACCES`) together with the database (and memory state) after the call;
on every error path the enclosing transaction is rolled back, so the
returned database is the input one.
-/

/-- A client identity: an opaque byte string, compared bytewise. -/
abbrev ClientId := List Nat

/-- The contents of one `rec-` table: the list of stored client ids
(distinct, since `id` is the primary key). -/
abbrev Bucket := List ClientId

/-- The on-disk state of `main.sqlite`. -/
structure DB where
  version : Option Nat
  grace : Option (Nat × Nat)
  buckets : List (Nat × Bucket)
  clients : Option Bucket
  deriving DecidableEq

/-- The daemon's in-memory epoch globals (`cld-internal.h`). -/
structure MemState where
  current_epoch : Nat
  recovery_epoch : Nat
  deriving DecidableEq

/-- Look up the table `rec-<e>` among the buckets. -/
def findBucket : List (Nat × Bucket) → Nat → Option Bucket
  | [], _ => none
  | (k, b) :: rest, e => if k = e then some b else findBucket rest e

/-- Replace the contents of the table `rec-<e>` (no-op on an absent key). -/
def setBucket : List (Nat × Bucket) → Nat → Bucket → List (Nat × Bucket)
  | [], _, _ => []
  | (k, b) :: rest, e, v =>
      if k = e then (e, v) :: setBucket rest e v
      else (k, b) :: setBucket rest e v

/-- Drop the table `rec-<e>`. -/
def dropBucket : List (Nat × Bucket) → Nat → List (Nat × Bucket)
  | [], _ => []
  | (k, b) :: rest, e =>
      if k = e then dropBucket rest e else (k, b) :: dropBucket rest e

/-- `INSERT OR REPLACE` of `cid` into a bucket whose only column is the
primary key: re-presenting an existing id leaves the bucket unchanged. -/
def bucketInsert (b : Bucket) (cid : ClientId) : Bucket :=
  if cid ∈ b then b else b ++ [cid]

/-- `sqlite_query_schema_version`: `SELECT value FROM parameters WHERE
key == "version"`, returning `0` when the query fails. -/
def queryVersion (db : DB) : Nat := db.version.getD 0

/-- `sqlite_insert_client`: `INSERT OR REPLACE INTO "rec-<current_epoch>"
VALUES (?)`.  Fails (statement preparation) if the table is absent. -/
def sqlite_insert_client (st : MemState) (db : DB) (cid : ClientId) :
    Int × DB :=
  match findBucket db.buckets st.current_epoch with
  | none => (1, db)
  | some b =>
      (0, { db with
              buckets := setBucket db.buckets st.current_epoch
                           (bucketInsert b cid) })

/-- `sqlite_remove_client`: `DELETE FROM "rec-<current_epoch>" WHERE
id==?`.  Deleting an absent id succeeds. -/
def sqlite_remove_client (st : MemState) (db : DB) (cid : ClientId) :
    Int × DB :=
  match findBucket db.buckets st.current_epoch with
  | none => (1, db)
  | some b =>
      (0, { db with
              buckets := setBucket db.buckets st.current_epoch
                           (b.filter (fun x => x != cid)) })

/-- `sqlite_check_client`: `SELECT count(*) FROM "rec-<recovery_epoch>"
WHERE id==?`; on count `1` insert the id into the current epoch's table
(returning that insert's result), otherwise return `-EACCES`. -/
def sqlite_check_client (st : MemState) (db : DB) (cid : ClientId) :
    Int × DB :=
  match findBucket db.buckets st.recovery_epoch with
  | none => (1, db)
  | some rb =>
      if cid ∈ rb then sqlite_insert_client st db cid
      else (-13, db)

/-- `sqlite_grace_start`: under an exclusive transaction, either the
normal case (`recovery_epoch == 0`): `UPDATE grace SET current = c+1,
recovery = c` and `CREATE TABLE "rec-<c+1>"`; or the restarted-in-grace
case: `DELETE FROM "rec-<current_epoch>"`.  The in-memory epochs are
updated only after the commit. -/
def sqlite_grace_start (st : MemState) (db : DB) : Int × DB × MemState :=
  if st.recovery_epoch = 0 then
    match db.grace with
    | none => (1, db, st)
    | some _ =>
        match findBucket db.buckets (st.current_epoch + 1) with
        | some _ => (1, db, st)
        | none =>
            (0, { db with
                    grace := some (st.current_epoch + 1, st.current_epoch),
                    buckets :=
                      (st.current_epoch + 1, ([] : Bucket)) :: db.buckets },
             ⟨st.current_epoch + 1, st.current_epoch⟩)
  else
    match findBucket db.buckets st.current_epoch with
    | none => (1, db, st)
    | some _ =>
        (0, { db with buckets := setBucket db.buckets st.current_epoch [] },
         st)

/-- `sqlite_grace_done`: under an exclusive transaction, `UPDATE grace SET
recovery = "0"` then `DROP TABLE "rec-<recovery_epoch>"`; the in-memory
`recovery_epoch` is cleared only after the commit. -/
def sqlite_grace_done (st : MemState) (db : DB) : Int × DB × MemState :=
  match db.grace with
  | none => (1, db, st)
  | some (c, _) =>
      match findBucket db.buckets st.recovery_epoch with
      | none => (1, db, st)
      | some _ =>
          (0, { db with
                  grace := some (c, 0),
                  buckets := dropBucket db.buckets st.recovery_epoch },
           ⟨st.current_epoch, 0⟩)

/-- `sqlite_iterate_recovery`: `-EINVAL` when not in grace; otherwise
`SELECT * FROM "rec-<recovery_epoch>"`, invoking the callback once per
row.  The result is the C return value (`0` once the scan reaches
`SQLITE_DONE`) together with the list of the callback's arguments, in
order. -/
def sqlite_iterate_recovery (st : MemState) (db : DB) :
    Int × List ClientId :=
  if st.recovery_epoch = 0 then (-22, [])
  else
    match findBucket db.buckets st.recovery_epoch with
    | none => (1, [])
    | some b => (0, b)

/-- `sqlite_maindb_update_schema`: under an exclusive transaction,
re-check the schema version (treating a racing setup that already reached
the latest version as success), then create `grace` with row `(1,0)`,
create `rec-0000000000000001`, copy the rows of the legacy `clients`
table into it, drop `clients`, and set `parameters.version` to `3`. -/
def sqlite_maindb_update_schema (oldversion : Nat) (db : DB) : Int × DB :=
  if queryVersion db ≠ oldversion then
    if queryVersion db = 3 then (0, db) else (-22, db)
  else
    match db.grace with
    | some _ => (1, db)
    | none =>
        match findBucket db.buckets 1 with
        | some _ => (1, db)
        | none =>
            match db.clients with
            | none => (1, db)
            | some s =>
                (0, { version := db.version.map (fun _ => 3),
                      grace := some (1, 0),
                      buckets := (1, s) :: db.buckets,
                      clients := none })

/-- `sqlite_maindb_init_v3`: under an exclusive transaction, re-check the
schema version (`3`: a racing setup won, succeed; non-zero other than `3`:
fail), then create `parameters`, `grace` with row `(1,0)` and
`rec-0000000000000001`, and insert `("version","3")`. -/
def sqlite_maindb_init_v3 (db : DB) : Int × DB :=
  if queryVersion db = 0 then
    match db.version with
    | some _ => (1, db)
    | none =>
        match db.grace with
        | some _ => (1, db)
        | none =>
            match findBucket db.buckets 1 with
            | some _ => (1, db)
            | none =>
                (0, { version := some 3,
                      grace := some (1, 0),
                      buckets := (1, ([] : Bucket)) :: db.buckets,
                      clients := db.clients })
  else if queryVersion db = 3 then (0, db)
  else (-22, db)

/-- `sqlite_startup_query_grace`: `SELECT * FROM grace`, publishing the
row into the in-memory epochs; fails when the row cannot be read. -/
def sqlite_startup_query_grace (db : DB) : Option MemState :=
  db.grace.map (fun p => ⟨p.1, p.2⟩)

/-- The schema-version dispatch of `sqlite_prepare_dbh` (the `switch` on
the result of `sqlite_query_schema_version`): `3`: nothing to do; `2`/`1`:
update the schema; `0`: set up a fresh database; anything else:
`-EINVAL`. -/
def sqlite_prepare_dbh_step (db : DB) : Int × DB :=
  if queryVersion db = 3 then (0, db)
  else if queryVersion db = 2 then sqlite_maindb_update_schema 2 db
  else if queryVersion db = 1 then sqlite_maindb_update_schema 1 db
  else if queryVersion db = 0 then sqlite_maindb_init_v3 db
  else (-22, db)

/-- `sqlite_prepare_dbh`: open the database, dispatch on the schema
version (`sqlite_prepare_dbh_step`), then read the grace row into memory
(`sqlite_startup_query_grace`).  On success the third component holds the
published epochs. -/
def sqlite_prepare_dbh (db : DB) : Int × DB × Option MemState :=
  if (sqlite_prepare_dbh_step db).1 = 0 then
    match sqlite_startup_query_grace (sqlite_prepare_dbh_step db).2 with
    | some st => (0, (sqlite_prepare_dbh_step db).2, some st)
    | none => (1, (sqlite_prepare_dbh_step db).2, none)
  else ((sqlite_prepare_dbh_step db).1, (sqlite_prepare_dbh_step db).2, none)

/-- The database created by first startup on an empty directory. -/
def dbInit : DB := ⟨some 3, some (1, 0), [(1, [])], none⟩

/-- The initial epoch state `(1, 0)`. -/
def initState : MemState := ⟨1, 0⟩

/-- One successful epoch transition: a `sqlite_grace_start` or a
`sqlite_grace_done` that returned `SQLITE_OK`. -/
inductive TrackerStep : MemState × DB → MemState × DB → Prop where
  | start (st st' : MemState) (db db' : DB) :
      sqlite_grace_start st db = (0, db', st') →
      TrackerStep (st, db) (st', db')
  | done (st st' : MemState) (db db' : DB) :
      sqlite_grace_done st db = (0, db', st') →
      TrackerStep (st, db) (st', db')

/-- States reachable from the initial state by successful `grace_start`
and `grace_done` operations. -/
def TrackerReach (s : MemState × DB) : Prop :=
  Relation.ReflTransGen TrackerStep (initState, dbInit) s

/-! ### Association-list lemmas -/

theorem findBucket_setBucket_self (bks : List (Nat × Bucket)) (e : Nat)
    (v : Bucket) :
    findBucket (setBucket bks e v) e = (findBucket bks e).map (fun _ => v) := by
  induction bks with
  | nil => rfl
  | cons p rest ih =>
      obtain ⟨k, b⟩ := p
      by_cases hk : k = e
      · subst hk
        simp [setBucket, findBucket]
      · simpa [setBucket, findBucket, hk] using ih

theorem findBucket_setBucket_ne (bks : List (Nat × Bucket)) (e e' : Nat)
    (v : Bucket) (h : e' ≠ e) :
    findBucket (setBucket bks e v) e' = findBucket bks e' := by
  induction bks with
  | nil => rfl
  | cons p rest ih =>
      obtain ⟨k, b⟩ := p
      by_cases hk : k = e
      · subst hk
        simpa [setBucket, findBucket, Ne.symm h] using ih
      · by_cases hk' : k = e'
        · subst hk'
          simp [setBucket, findBucket, hk]
        · simpa [setBucket, findBucket, hk, hk'] using ih

theorem setBucket_setBucket_same (bks : List (Nat × Bucket)) (e : Nat)
    (v : Bucket) : setBucket (setBucket bks e v) e v = setBucket bks e v := by
  induction bks with
  | nil => rfl
  | cons p rest ih =>
      obtain ⟨k, b⟩ := p
      by_cases hk : k = e
      · subst hk
        simpa [setBucket] using ih
      · simpa [setBucket, hk] using ih

theorem findBucket_dropBucket_self (bks : List (Nat × Bucket)) (e : Nat) :
    findBucket (dropBucket bks e) e = none := by
  induction bks with
  | nil => rfl
  | cons p rest ih =>
      obtain ⟨k, b⟩ := p
      by_cases hk : k = e
      · simpa [dropBucket, hk] using ih
      · simpa [dropBucket, findBucket, hk] using ih

theorem findBucket_dropBucket_ne (bks : List (Nat × Bucket)) (e e' : Nat)
    (h : e' ≠ e) :
    findBucket (dropBucket bks e) e' = findBucket bks e' := by
  induction bks with
  | nil => rfl
  | cons p rest ih =>
      obtain ⟨k, b⟩ := p
      by_cases hk : k = e
      · subst hk
        simpa [dropBucket, findBucket, Ne.symm h] using ih
      · by_cases hk' : k = e'
        · subst hk'
          simp [dropBucket, findBucket, hk]
        · simpa [dropBucket, findBucket, hk, hk'] using ih

theorem dropBucket_of_not_mem (bks : List (Nat × Bucket)) (e : Nat)
    (h : e ∉ bks.map Prod.fst) : dropBucket bks e = bks := by
  induction bks with
  | nil => rfl
  | cons p rest ih =>
      obtain ⟨k, b⟩ := p
      simp only [List.map_cons, List.mem_cons] at h
      push_neg at h
      simp [dropBucket, Ne.symm h.1, ih h.2]

theorem mem_bucketInsert_self (b : Bucket) (cid : ClientId) :
    cid ∈ bucketInsert b cid := by
  unfold bucketInsert
  split
  · assumption
  · simp

theorem bucketInsert_of_mem (b : Bucket) (cid : ClientId) (h : cid ∈ b) :
    bucketInsert b cid = b := by
  simp [bucketInsert, h]

theorem length_dropBucket (bks : List (Nat × Bucket)) (e : Nat)
    (hnd : (bks.map Prod.fst).Nodup) (hf : (findBucket bks e).isSome) :
    (dropBucket bks e).length + 1 = bks.length := by
  induction bks with
  | nil => simp [findBucket] at hf
  | cons p rest ih =>
      obtain ⟨k, b⟩ := p
      simp only [List.map_cons, List.nodup_cons] at hnd
      by_cases hk : k = e
      · subst hk
        rw [dropBucket, if_pos rfl, dropBucket_of_not_mem rest k hnd.1]
        simp
      · rw [dropBucket, if_neg hk]
        have : (findBucket rest e).isSome := by
          simpa [findBucket, hk] using hf
        simpa using ih hnd.2 this

/-! ### Inversion lemmas for successful operations -/

theorem grace_start_ok_inv (st st' : MemState) (db db' : DB)
    (h : sqlite_grace_start st db = (0, db', st')) :
    (st.recovery_epoch = 0 ∧ db.grace.isSome ∧
      findBucket db.buckets (st.current_epoch + 1) = none ∧
      db' = { db with
                grace := some (st.current_epoch + 1, st.current_epoch),
                buckets := (st.current_epoch + 1, ([] : Bucket)) :: db.buckets } ∧
      st' = ⟨st.current_epoch + 1, st.current_epoch⟩) ∨
    (st.recovery_epoch ≠ 0 ∧
      (findBucket db.buckets st.current_epoch).isSome ∧
      db' = { db with buckets := setBucket db.buckets st.current_epoch [] } ∧
      st' = st) := by
  unfold sqlite_grace_start at h
  by_cases hrec : st.recovery_epoch = 0
  · rw [if_pos hrec] at h
    cases hg : db.grace with
    | none =>
        rw [hg] at h
        exact absurd (congrArg Prod.fst h) (by norm_num)
    | some g =>
        rw [hg] at h
        cases hfb : findBucket db.buckets (st.current_epoch + 1) with
        | some b =>
            rw [hfb] at h
            exact absurd (congrArg Prod.fst h) (by norm_num)
        | none =>
            rw [hfb] at h
            left
            exact ⟨hrec, by simp [hg], rfl,
              (congrArg (fun x => x.2.1) h).symm,
              (congrArg (fun x => x.2.2) h).symm⟩
  · rw [if_neg hrec] at h
    cases hfb : findBucket db.buckets st.current_epoch with
    | none =>
        rw [hfb] at h
        exact absurd (congrArg Prod.fst h) (by norm_num)
    | some b =>
        rw [hfb] at h
        right
        exact ⟨hrec, by simp [hfb],
          (congrArg (fun x => x.2.1) h).symm,
          (congrArg (fun x => x.2.2) h).symm⟩

theorem grace_done_ok_inv (st st' : MemState) (db db' : DB)
    (h : sqlite_grace_done st db = (0, db', st')) :
    ∃ c r, db.grace = some (c, r) ∧
      (findBucket db.buckets st.recovery_epoch).isSome ∧
      db' = { db with
                grace := some (c, 0),
                buckets := dropBucket db.buckets st.recovery_epoch } ∧
      st' = ⟨st.current_epoch, 0⟩ := by
  unfold sqlite_grace_done at h
  cases hg : db.grace with
  | none =>
      rw [hg] at h
      exact absurd (congrArg Prod.fst h) (by norm_num)
  | some g =>
      obtain ⟨c, r⟩ := g
      rw [hg] at h
      cases hfb : findBucket db.buckets st.recovery_epoch with
      | none =>
          rw [hfb] at h
          exact absurd (congrArg Prod.fst h) (by norm_num)
      | some b =>
          rw [hfb] at h
          exact ⟨c, r, rfl, by simp [hfb],
            (congrArg (fun x => x.2.1) h).symm,
            (congrArg (fun x => x.2.2) h).symm⟩

/-! ### Claims about the epoch state machine -/

/-- C1: for every state with `recovery_epoch == 0`, a successful
`grace_start` sets `recovery_epoch` to the old `current_epoch`, sets
`current_epoch` to the old `current_epoch + 1` (strictly increasing it),
and creates a new empty bucket `rec-<new current_epoch>`. -/
theorem c1_grace_start_normal (st st' : MemState) (db db' : DB)
    (hrec : st.recovery_epoch = 0)
    (h : sqlite_grace_start st db = (0, db', st')) :
    st'.recovery_epoch = st.current_epoch ∧
    st'.current_epoch = st.current_epoch + 1 ∧
    st.current_epoch < st'.current_epoch ∧
    db'.grace = some (st.current_epoch + 1, st.current_epoch) ∧
    findBucket db.buckets st'.current_epoch = none ∧
    findBucket db'.buckets st'.current_epoch = some [] := by
  rcases grace_start_ok_inv st st' db db' h with
    ⟨_, _, hfb, hdb, hst⟩ | ⟨hne, _⟩
  · subst hdb hst
    refine ⟨rfl, rfl, Nat.lt_succ_self _, rfl, hfb, ?_⟩
    show findBucket ((st.current_epoch + 1, ([] : Bucket)) :: db.buckets)
      (st.current_epoch + 1) = some []
    simp [findBucket]
  · exact absurd hrec hne

/-- Witness for C1: the first `grace_start` from the freshly initialized
database takes `(1, 0)` to `(2, 1)` and creates the empty bucket for
epoch `2`. -/
theorem c1_grace_start_normal_witness :
    initState.recovery_epoch = 0 ∧
    sqlite_grace_start initState dbInit =
      (0, ⟨some 3, some (2, 1), [(2, []), (1, [])], none⟩, ⟨2, 1⟩) ∧
    ((⟨2, 1⟩ : MemState).recovery_epoch = initState.current_epoch ∧
     (⟨2, 1⟩ : MemState).current_epoch = initState.current_epoch + 1 ∧
     initState.current_epoch < (⟨2, 1⟩ : MemState).current_epoch ∧
     (⟨some 3, some (2, 1), [(2, []), (1, [])], none⟩ : DB).grace =
       some (initState.current_epoch + 1, initState.current_epoch) ∧
     findBucket dbInit.buckets (⟨2, 1⟩ : MemState).current_epoch = none ∧
     findBucket
       (⟨some 3, some (2, 1), [(2, []), (1, [])], none⟩ : DB).buckets
       (⟨2, 1⟩ : MemState).current_epoch = some []) :=
  ⟨rfl, by decide,
   c1_grace_start_normal initState ⟨2, 1⟩ dbInit
     ⟨some 3, some (2, 1), [(2, []), (1, [])], none⟩ rfl (by decide)⟩

/-- C3: for every state with `recovery_epoch != 0`, a successful
`grace_start` leaves both epochs unchanged (in memory and on disk) and
empties the `rec-<current_epoch>` bucket, leaving every other bucket as
it was. -/
theorem c3_grace_start_in_grace (st st' : MemState) (db db' : DB)
    (hrec : st.recovery_epoch ≠ 0)
    (h : sqlite_grace_start st db = (0, db', st')) :
    st' = st ∧ db'.grace = db.grace ∧
    findBucket db'.buckets st.current_epoch = some [] ∧
    ∀ e, e ≠ st.current_epoch →
      findBucket db'.buckets e = findBucket db.buckets e := by
  rcases grace_start_ok_inv st st' db db' h with
    ⟨h0, _⟩ | ⟨_, hfb, hdb, hst⟩
  · exact absurd h0 hrec
  · refine ⟨hst, ?_, ?_, ?_⟩
    · rw [hdb]
    · rw [hdb]
      show findBucket (setBucket db.buckets st.current_epoch [])
        st.current_epoch = some []
      obtain ⟨b, hb⟩ := Option.isSome_iff_exists.mp hfb
      rw [findBucket_setBucket_self, hb]
      rfl
    · intro e he
      rw [hdb]
      show findBucket (setBucket db.buckets st.current_epoch []) e =
        findBucket db.buckets e
      exact findBucket_setBucket_ne _ _ _ _ he

/-- Witness for C3: a restart in grace at `(2, 1)` keeps the epochs and
empties the bucket of epoch `2`, leaving the bucket of epoch `1` alone. -/
theorem c3_grace_start_in_grace_witness :
    (⟨2, 1⟩ : MemState).recovery_epoch ≠ 0 ∧
    sqlite_grace_start ⟨2, 1⟩
        ⟨some 3, some (2, 1), [(2, [[7]]), (1, [])], none⟩ =
      (0, ⟨some 3, some (2, 1), [(2, []), (1, [])], none⟩, ⟨2, 1⟩) ∧
    ((⟨2, 1⟩ : MemState) = (⟨2, 1⟩ : MemState) ∧
     (⟨some 3, some (2, 1), [(2, []), (1, [])], none⟩ : DB).grace =
       (⟨some 3, some (2, 1), [(2, [[7]]), (1, [])], none⟩ : DB).grace ∧
     findBucket
       (⟨some 3, some (2, 1), [(2, []), (1, [])], none⟩ : DB).buckets
       (⟨2, 1⟩ : MemState).current_epoch = some [] ∧
     ∀ e, e ≠ (⟨2, 1⟩ : MemState).current_epoch →
       findBucket
         (⟨some 3, some (2, 1), [(2, []), (1, [])], none⟩ : DB).buckets e =
       findBucket
         (⟨some 3, some (2, 1), [(2, [[7]]), (1, [])], none⟩ : DB).buckets
         e) :=
  ⟨by decide, by decide,
   c3_grace_start_in_grace ⟨2, 1⟩ ⟨2, 1⟩
     ⟨some 3, some (2, 1), [(2, [[7]]), (1, [])], none⟩
     ⟨some 3, some (2, 1), [(2, []), (1, [])], none⟩
     (by decide) (by decide)⟩

/-- C4: a successful `grace_done` sets `recovery_epoch` to `0` on disk
and in memory, removes exactly the bucket `rec-<recovery_epoch>`, and
leaves `current_epoch` (on disk and in memory) and all other buckets
unchanged. -/
theorem c4_grace_done_effect (st st' : MemState) (db db' : DB)
    (h : sqlite_grace_done st db = (0, db', st')) :
    st'.current_epoch = st.current_epoch ∧
    st'.recovery_epoch = 0 ∧
    Option.map Prod.snd db'.grace = some 0 ∧
    Option.map Prod.fst db'.grace = Option.map Prod.fst db.grace ∧
    findBucket db'.buckets st.recovery_epoch = none ∧
    (∀ e, e ≠ st.recovery_epoch →
      findBucket db'.buckets e = findBucket db.buckets e) ∧
    ((db.buckets.map Prod.fst).Nodup →
      db'.buckets.length + 1 = db.buckets.length) := by
  obtain ⟨c, r, hg, hfb, hdb, hst⟩ := grace_done_ok_inv st st' db db' h
  subst hdb hst
  refine ⟨rfl, rfl, rfl, by rw [hg]; rfl, ?_, ?_, ?_⟩
  · exact findBucket_dropBucket_self _ _
  · intro e he
    exact findBucket_dropBucket_ne _ _ _ he
  · intro hnd
    exact length_dropBucket _ _ hnd hfb

/-- Witness for C4: `grace_done` at `(2, 1)` drops the bucket of epoch
`1`, clears the recovery column and keeps the current epoch. -/
theorem c4_grace_done_effect_witness :
    sqlite_grace_done ⟨2, 1⟩
        ⟨some 3, some (2, 1), [(2, []), (1, [[3]])], none⟩ =
      (0, ⟨some 3, some (2, 0), [(2, [])], none⟩, ⟨2, 0⟩) ∧
    ((⟨2, 0⟩ : MemState).current_epoch = (⟨2, 1⟩ : MemState).current_epoch ∧
     (⟨2, 0⟩ : MemState).recovery_epoch = 0 ∧
     Option.map Prod.snd
       (⟨some 3, some (2, 0), [(2, [])], none⟩ : DB).grace = some 0 ∧
     Option.map Prod.fst
         (⟨some 3, some (2, 0), [(2, [])], none⟩ : DB).grace =
       Option.map Prod.fst
         (⟨some 3, some (2, 1), [(2, []), (1, [[3]])], none⟩ : DB).grace ∧
     findBucket (⟨some 3, some (2, 0), [(2, [])], none⟩ : DB).buckets
       (⟨2, 1⟩ : MemState).recovery_epoch = none ∧
     (∀ e, e ≠ (⟨2, 1⟩ : MemState).recovery_epoch →
       findBucket (⟨some 3, some (2, 0), [(2, [])], none⟩ : DB).buckets e =
       findBucket
         (⟨some 3, some (2, 1), [(2, []), (1, [[3]])], none⟩ : DB).buckets
         e) ∧
     (((⟨some 3, some (2, 1), [(2, []), (1, [[3]])], none⟩ : DB).buckets.map
         Prod.fst).Nodup →
       (⟨some 3, some (2, 0), [(2, [])], none⟩ : DB).buckets.length + 1 =
       (⟨some 3, some (2, 1), [(2, []), (1, [[3]])], none⟩
         : DB).buckets.length)) :=
  ⟨by decide,
   c4_grace_done_effect ⟨2, 1⟩ ⟨2, 0⟩
     ⟨some 3, some (2, 1), [(2, []), (1, [[3]])], none⟩
     ⟨some 3, some (2, 0), [(2, [])], none⟩ (by decide)⟩

/-- C5: in every state reachable from the initial state `(1, 0)` by
successful `grace_start` and `grace_done` operations, `recovery_epoch`
is `0` or strictly below `current_epoch`. -/
theorem c5_epoch_invariant (s : MemState × DB) (h : TrackerReach s) :
    s.1.recovery_epoch = 0 ∨ s.1.recovery_epoch < s.1.current_epoch := by
  induction h with
  | refl => exact Or.inl rfl
  | tail hab hstep ih =>
      cases hstep with
      | start st st' db db' heq =>
          rcases grace_start_ok_inv st st' db db' heq with
            ⟨_, _, _, _, hst⟩ | ⟨_, _, _, hst⟩
          · subst hst
            exact Or.inr (Nat.lt_succ_self _)
          · subst hst
            exact ih
      | done st st' db db' heq =>
          obtain ⟨c, r, _, _, _, hst⟩ := grace_done_ok_inv st st' db db' heq
          subst hst
          exact Or.inl rfl

/-- Witness for C5: the initial state is reachable and satisfies the
invariant. -/
theorem c5_epoch_invariant_witness :
    initState.recovery_epoch = 0 ∨
      initState.recovery_epoch < initState.current_epoch :=
  c5_epoch_invariant (initState, dbInit) Relation.ReflTransGen.refl

/-- C9: `insert_client` is idempotent: inserting the same id twice in
succession yields exactly the state (and return code) of the first
insert. -/
theorem c9_insert_client_idempotent (st : MemState) (db : DB)
    (cid : ClientId) :
    sqlite_insert_client st (sqlite_insert_client st db cid).2 cid =
      sqlite_insert_client st db cid := by
  cases hfb : findBucket db.buckets st.current_epoch with
  | none => simp [sqlite_insert_client, hfb]
  | some b =>
      have h1 : findBucket (setBucket db.buckets st.current_epoch
          (bucketInsert b cid)) st.current_epoch =
          some (bucketInsert b cid) := by
        rw [findBucket_setBucket_self, hfb]
        rfl
      simp only [sqlite_insert_client, hfb]
      simp only [h1]
      rw [bucketInsert_of_mem _ _ (mem_bucketInsert_self b cid),
        setBucket_setBucket_same]

/-- C10: calling `grace_done` outside a grace period (`recovery_epoch ==
0`, and no bucket for epoch `0` exists) fails and leaves the database
and the in-memory epochs untouched. -/
theorem c10_grace_done_not_in_grace (st : MemState) (db : DB)
    (hrec : st.recovery_epoch = 0)
    (hb : findBucket db.buckets 0 = none) :
    (sqlite_grace_done st db).1 ≠ 0 ∧
    (sqlite_grace_done st db).2.1 = db ∧
    (sqlite_grace_done st db).2.2 = st := by
  have heq : sqlite_grace_done st db = (1, db, st) := by
    unfold sqlite_grace_done
    cases hg : db.grace with
    | none => rfl
    | some g =>
        obtain ⟨c, r⟩ := g
        rw [hrec, hb]
  rw [heq]
  exact ⟨by norm_num, rfl, rfl⟩

/-- Witness for C10: `grace_done` on the fresh database at `(1, 0)`
returns an error and changes nothing. -/
theorem c10_grace_done_not_in_grace_witness :
    initState.recovery_epoch = 0 ∧
    findBucket dbInit.buckets 0 = none ∧
    ((sqlite_grace_done initState dbInit).1 ≠ 0 ∧
     (sqlite_grace_done initState dbInit).2.1 = dbInit ∧
     (sqlite_grace_done initState dbInit).2.2 = initState) :=
  ⟨rfl, by decide,
   c10_grace_done_not_in_grace initState dbInit rfl (by decide)⟩

/-! ### Migration lemmas -/

theorem update_schema_fail_eq (ov : Nat) (db db2 : DB) (r : Int)
    (h : sqlite_maindb_update_schema ov db = (r, db2)) (hr : r ≠ 0) :
    db2 = db := by
  unfold sqlite_maindb_update_schema at h
  by_cases h1 : queryVersion db ≠ ov
  · rw [if_pos h1] at h
    by_cases h3 : queryVersion db = 3
    · rw [if_pos h3] at h
      exact absurd (congrArg Prod.fst h).symm hr
    · rw [if_neg h3] at h
      exact (congrArg Prod.snd h).symm
  · rw [if_neg h1] at h
    cases hg : db.grace with
    | some g =>
        rw [hg] at h
        exact (congrArg Prod.snd h).symm
    | none =>
        rw [hg] at h
        cases hb : findBucket db.buckets 1 with
        | some b =>
            rw [hb] at h
            exact (congrArg Prod.snd h).symm
        | none =>
            rw [hb] at h
            cases hc : db.clients with
            | none =>
                rw [hc] at h
                exact (congrArg Prod.snd h).symm
            | some s =>
                rw [hc] at h
                exact absurd (congrArg Prod.fst h).symm hr

theorem update_schema_ok_inv (ov : Nat) (db : DB)
    (h : (sqlite_maindb_update_schema ov db).1 = 0) :
    (queryVersion db = 3 ∧ (sqlite_maindb_update_schema ov db).2 = db) ∨
    (queryVersion db = ov ∧ db.grace = none ∧
      findBucket db.buckets 1 = none ∧
      ∃ s, db.clients = some s ∧
        (sqlite_maindb_update_schema ov db).2 =
          ⟨db.version.map (fun _ => 3), some (1, 0),
            (1, s) :: db.buckets, none⟩) := by
  by_cases h1 : queryVersion db ≠ ov
  · by_cases h3 : queryVersion db = 3
    · have heq : sqlite_maindb_update_schema ov db = (0, db) := by
        unfold sqlite_maindb_update_schema
        rw [if_pos h1, if_pos h3]
      exact Or.inl ⟨h3, by rw [heq]⟩
    · exfalso
      have heq : sqlite_maindb_update_schema ov db = (-22, db) := by
        unfold sqlite_maindb_update_schema
        rw [if_pos h1, if_neg h3]
      rw [heq] at h
      norm_num at h
  · cases hg : db.grace with
    | some g =>
        exfalso
        have heq : sqlite_maindb_update_schema ov db = (1, db) := by
          unfold sqlite_maindb_update_schema
          rw [if_neg h1, hg]
        rw [heq] at h
        norm_num at h
    | none =>
        cases hb : findBucket db.buckets 1 with
        | some b =>
            exfalso
            have heq : sqlite_maindb_update_schema ov db = (1, db) := by
              unfold sqlite_maindb_update_schema
              rw [if_neg h1, hg, hb]
            rw [heq] at h
            norm_num at h
        | none =>
            cases hc : db.clients with
            | none =>
                exfalso
                have heq : sqlite_maindb_update_schema ov db = (1, db) := by
                  unfold sqlite_maindb_update_schema
                  rw [if_neg h1, hg, hb, hc]
                rw [heq] at h
                norm_num at h
            | some s =>
                have heq : sqlite_maindb_update_schema ov db =
                    (0, ⟨db.version.map (fun _ => 3), some (1, 0),
                      (1, s) :: db.buckets, none⟩) := by
                  unfold sqlite_maindb_update_schema
                  rw [if_neg h1, hg, hb, hc]
                exact Or.inr ⟨not_not.mp h1, by simp [hg], by simp [hb],
                  s, by simp [hc], by rw [heq]⟩

theorem update_schema_ok_version (ov : Nat) (db : DB) (hov : ov ≠ 0)
    (h : (sqlite_maindb_update_schema ov db).1 = 0) :
    queryVersion (sqlite_maindb_update_schema ov db).2 = 3 := by
  rcases update_schema_ok_inv ov db h with ⟨h3, hdb⟩ | ⟨hq, _, _, s, _, hdb⟩
  · rw [hdb]
    exact h3
  · rw [hdb]
    cases hv : db.version with
    | none =>
        have h0 : queryVersion db = 0 := by simp [queryVersion, hv]
        rw [h0] at hq
        exact absurd hq.symm hov
    | some v => rfl

theorem init_v3_ok_inv (db : DB) (h : (sqlite_maindb_init_v3 db).1 = 0) :
    (queryVersion db = 3 ∧ (sqlite_maindb_init_v3 db).2 = db) ∨
    (db.version = none ∧ db.grace = none ∧
      findBucket db.buckets 1 = none ∧
      (sqlite_maindb_init_v3 db).2 =
        ⟨some 3, some (1, 0), (1, ([] : Bucket)) :: db.buckets,
          db.clients⟩) := by
  by_cases h0 : queryVersion db = 0
  · cases hv : db.version with
    | some v =>
        exfalso
        have heq : sqlite_maindb_init_v3 db = (1, db) := by
          unfold sqlite_maindb_init_v3
          rw [if_pos h0, hv]
        rw [heq] at h
        norm_num at h
    | none =>
        cases hg : db.grace with
        | some g =>
            exfalso
            have heq : sqlite_maindb_init_v3 db = (1, db) := by
              unfold sqlite_maindb_init_v3
              rw [if_pos h0, hv, hg]
            rw [heq] at h
            norm_num at h
        | none =>
            cases hb : findBucket db.buckets 1 with
            | some b =>
                exfalso
                have heq : sqlite_maindb_init_v3 db = (1, db) := by
                  unfold sqlite_maindb_init_v3
                  rw [if_pos h0, hv, hg, hb]
                rw [heq] at h
                norm_num at h
            | none =>
                have heq : sqlite_maindb_init_v3 db =
                    (0, ⟨some 3, some (1, 0),
                      (1, ([] : Bucket)) :: db.buckets, db.clients⟩) := by
                  unfold sqlite_maindb_init_v3
                  rw [if_pos h0, hv, hg, hb]
                exact Or.inr ⟨by simp [hv], by simp [hg], by simp [hb],
                  by rw [heq]⟩
  · by_cases h3 : queryVersion db = 3
    · have heq : sqlite_maindb_init_v3 db = (0, db) := by
        unfold sqlite_maindb_init_v3
        rw [if_neg h0, if_pos h3]
      exact Or.inl ⟨h3, by rw [heq]⟩
    · exfalso
      have heq : sqlite_maindb_init_v3 db = (-22, db) := by
        unfold sqlite_maindb_init_v3
        rw [if_neg h0, if_neg h3]
      rw [heq] at h
      norm_num at h

theorem init_v3_ok_version (db : DB)
    (h : (sqlite_maindb_init_v3 db).1 = 0) :
    queryVersion (sqlite_maindb_init_v3 db).2 = 3 := by
  rcases init_v3_ok_inv db h with ⟨h3, hdb⟩ | ⟨_, _, _, hdb⟩
  · rw [hdb]
    exact h3
  · rw [hdb]
    rfl

theorem prepare_step_ok_version (db : DB)
    (h : (sqlite_prepare_dbh_step db).1 = 0) :
    queryVersion (sqlite_prepare_dbh_step db).2 = 3 := by
  unfold sqlite_prepare_dbh_step at h ⊢
  by_cases h3 : queryVersion db = 3
  · rw [if_pos h3] at h ⊢
    exact h3
  · rw [if_neg h3] at h ⊢
    by_cases h2 : queryVersion db = 2
    · rw [if_pos h2] at h ⊢
      exact update_schema_ok_version 2 db (by norm_num) h
    · rw [if_neg h2] at h ⊢
      by_cases h1 : queryVersion db = 1
      · rw [if_pos h1] at h ⊢
        exact update_schema_ok_version 1 db (by norm_num) h
      · rw [if_neg h1] at h ⊢
        by_cases h0 : queryVersion db = 0
        · rw [if_pos h0] at h ⊢
          exact init_v3_ok_version db h
        · rw [if_neg h0] at h
          norm_num at h

/-- C2: `check_client` succeeds (returns `SQLITE_OK`, i.e. `Allowed`) iff
the id is present in the `rec-<recovery_epoch>` bucket; on success it
also upserts the id into the `rec-<current_epoch>` bucket; and when
`recovery_epoch == 0` (so no `rec-<0>` bucket exists) it always fails
(`Denied`).  The hypotheses say the current epoch's bucket exists and no
bucket for the reserved epoch `0` does. -/
theorem c2_check_client (st : MemState) (db : DB) (cid : ClientId)
    (hcur : (findBucket db.buckets st.current_epoch).isSome)
    (h0 : findBucket db.buckets 0 = none) :
    ((sqlite_check_client st db cid).1 = 0 ↔
      ∃ rb, findBucket db.buckets st.recovery_epoch = some rb ∧
        cid ∈ rb) ∧
    (∀ cb, findBucket db.buckets st.current_epoch = some cb →
      (sqlite_check_client st db cid).1 = 0 →
      findBucket (sqlite_check_client st db cid).2.buckets
        st.current_epoch = some (bucketInsert cb cid)) ∧
    (st.recovery_epoch = 0 → (sqlite_check_client st db cid).1 ≠ 0) := by
  obtain ⟨cb0, hcb0⟩ := Option.isSome_iff_exists.mp hcur
  cases hrb : findBucket db.buckets st.recovery_epoch with
  | none =>
      have heq : sqlite_check_client st db cid = (1, db) := by
        unfold sqlite_check_client
        rw [hrb]
      refine ⟨?_, ?_, ?_⟩
      · rw [heq]
        constructor
        · intro h1
          norm_num at h1
        · rintro ⟨rb, hrb2, -⟩
          cases hrb2
      · intro cb hcb hok
        rw [heq] at hok
        norm_num at hok
      · intro hrec
        rw [heq]
        norm_num
  | some rb =>
      by_cases hmem : cid ∈ rb
      · have heq : sqlite_check_client st db cid =
            (0, { db with
                    buckets := setBucket db.buckets st.current_epoch
                      (bucketInsert cb0 cid) }) := by
          unfold sqlite_check_client sqlite_insert_client
          simp only [hrb]
          rw [if_pos hmem]
          simp only [hcb0]
        refine ⟨?_, ?_, ?_⟩
        · rw [heq]
          exact iff_of_true rfl ⟨rb, rfl, hmem⟩
        · intro cb hcb hok
          rw [hcb0] at hcb
          injection hcb with hcb
          subst hcb
          rw [heq]
          show findBucket (setBucket db.buckets st.current_epoch
            (bucketInsert cb0 cid)) st.current_epoch =
            some (bucketInsert cb0 cid)
          rw [findBucket_setBucket_self, hcb0]
          rfl
        · intro hrec
          exfalso
          rw [hrec] at hrb
          rw [h0] at hrb
          cases hrb
      · have heq : sqlite_check_client st db cid = (-13, db) := by
          unfold sqlite_check_client
          simp only [hrb]
          rw [if_neg hmem]
        refine ⟨?_, ?_, ?_⟩
        · rw [heq]
          constructor
          · intro h1
            norm_num at h1
          · rintro ⟨rb', hrb2, hm⟩
            injection hrb2 with hrb2
            exact absurd (hrb2 ▸ hm) hmem
        · intro cb hcb hok
          rw [heq] at hok
          norm_num at hok
        · intro hrec
          rw [heq]
          norm_num

/-- Witness for C2: in grace at `(2, 1)` with `[5]` recorded in epoch
`1`, checking `[5]` is allowed and re-records it in epoch `2`. -/
theorem c2_check_client_witness :
    ((findBucket (⟨some 3, some (2, 1), [(2, []), (1, [[5]])], none⟩
        : DB).buckets (⟨2, 1⟩ : MemState).current_epoch).isSome) ∧
    findBucket (⟨some 3, some (2, 1), [(2, []), (1, [[5]])], none⟩
      : DB).buckets 0 = none ∧
    (((sqlite_check_client ⟨2, 1⟩
          ⟨some 3, some (2, 1), [(2, []), (1, [[5]])], none⟩ [5]).1 = 0 ↔
        ∃ rb, findBucket (⟨some 3, some (2, 1), [(2, []), (1, [[5]])],
            none⟩ : DB).buckets (⟨2, 1⟩ : MemState).recovery_epoch =
          some rb ∧ [5] ∈ rb) ∧
     (∀ cb, findBucket (⟨some 3, some (2, 1), [(2, []), (1, [[5]])],
          none⟩ : DB).buckets (⟨2, 1⟩ : MemState).current_epoch =
          some cb →
        (sqlite_check_client ⟨2, 1⟩
          ⟨some 3, some (2, 1), [(2, []), (1, [[5]])], none⟩ [5]).1 = 0 →
        findBucket (sqlite_check_client ⟨2, 1⟩
            ⟨some 3, some (2, 1), [(2, []), (1, [[5]])], none⟩
            [5]).2.buckets (⟨2, 1⟩ : MemState).current_epoch =
          some (bucketInsert cb [5])) ∧
     ((⟨2, 1⟩ : MemState).recovery_epoch = 0 →
        (sqlite_check_client ⟨2, 1⟩
          ⟨some 3, some (2, 1), [(2, []), (1, [[5]])], none⟩ [5]).1 ≠ 0)) :=
  ⟨by decide, by decide,
   c2_check_client ⟨2, 1⟩ ⟨some 3, some (2, 1), [(2, []), (1, [[5]])], none⟩
     [5] (by decide) (by decide)⟩

/-- C6: opening a v1 database whose legacy `clients` table holds `s`
migrates it in one transaction: afterwards the version is `3`, the
`clients` table is gone and `rec-0000000000000001` holds exactly `s`;
and whenever any step of `sqlite_maindb_update_schema` fails, the
transaction is rolled back and the database is unchanged. -/
theorem c6_migration_v1 :
    (∀ (db : DB) (s : Bucket), db.version = some 1 → db.grace = none →
      findBucket db.buckets 1 = none → db.clients = some s →
      (sqlite_prepare_dbh db).1 = 0 ∧
      (sqlite_prepare_dbh db).2.1.version = some 3 ∧
      (sqlite_prepare_dbh db).2.1.clients = none ∧
      findBucket (sqlite_prepare_dbh db).2.1.buckets 1 = some s ∧
      (sqlite_prepare_dbh db).2.2 = some ⟨1, 0⟩) ∧
    (∀ (db db2 : DB) (r : Int),
      sqlite_maindb_update_schema 1 db = (r, db2) → r ≠ 0 → db2 = db) := by
  constructor
  · intro db s hv hg hb hc
    have hq : queryVersion db = 1 := by simp [queryVersion, hv]
    have hupd : sqlite_maindb_update_schema 1 db =
        (0, ⟨db.version.map (fun _ => 3), some (1, 0),
          (1, s) :: db.buckets, none⟩) := by
      unfold sqlite_maindb_update_schema
      rw [if_neg (not_not_intro hq), hg, hb]
      simp only [hc]
    have hstep : sqlite_prepare_dbh_step db =
        (0, ⟨db.version.map (fun _ => 3), some (1, 0),
          (1, s) :: db.buckets, none⟩) := by
      unfold sqlite_prepare_dbh_step
      rw [if_neg (by rw [hq]; norm_num), if_neg (by rw [hq]; norm_num),
        if_pos hq, hupd]
    have hfinal : sqlite_prepare_dbh db =
        (0, ⟨db.version.map (fun _ => 3), some (1, 0),
          (1, s) :: db.buckets, none⟩, some ⟨1, 0⟩) := by
      unfold sqlite_prepare_dbh
      rw [hstep]
      simp [sqlite_startup_query_grace]
    rw [hfinal]
    refine ⟨rfl, ?_, rfl, ?_, rfl⟩
    · show db.version.map (fun _ => 3) = some 3
      rw [hv]
      rfl
    · show findBucket ((1, s) :: db.buckets) 1 = some s
      simp [findBucket]
  · intro db db2 r h hr
    exact update_schema_fail_eq 1 db db2 r h hr

/-- Witness for C6: a v1 database with clients `[1]` and `[2]` migrates
to version 3 with both ids in `rec-0000000000000001`; a v1 database that
already has a `grace` table makes the migration fail with the database
unchanged. -/
theorem c6_migration_v1_witness :
    ((⟨some 1, none, [], some [[1], [2]]⟩ : DB).version = some 1 ∧
     (sqlite_prepare_dbh ⟨some 1, none, [], some [[1], [2]]⟩).1 = 0 ∧
     (sqlite_prepare_dbh
       ⟨some 1, none, [], some [[1], [2]]⟩).2.1.version = some 3 ∧
     (sqlite_prepare_dbh
       ⟨some 1, none, [], some [[1], [2]]⟩).2.1.clients = none ∧
     findBucket (sqlite_prepare_dbh
       ⟨some 1, none, [], some [[1], [2]]⟩).2.1.buckets 1 =
       some [[1], [2]] ∧
     (sqlite_prepare_dbh ⟨some 1, none, [], some [[1], [2]]⟩).2.2 =
       some ⟨1, 0⟩) ∧
    (sqlite_maindb_update_schema 1 ⟨some 1, some (1, 0), [], none⟩ =
       (1, ⟨some 1, some (1, 0), [], none⟩) ∧
     (⟨some 1, some (1, 0), [], none⟩ : DB) =
       (⟨some 1, some (1, 0), [], none⟩ : DB)) :=
  ⟨⟨rfl,
    (c6_migration_v1.1 ⟨some 1, none, [], some [[1], [2]]⟩ [[1], [2]]
      rfl rfl (by decide) rfl).1,
    (c6_migration_v1.1 ⟨some 1, none, [], some [[1], [2]]⟩ [[1], [2]]
      rfl rfl (by decide) rfl).2.1,
    (c6_migration_v1.1 ⟨some 1, none, [], some [[1], [2]]⟩ [[1], [2]]
      rfl rfl (by decide) rfl).2.2.1,
    (c6_migration_v1.1 ⟨some 1, none, [], some [[1], [2]]⟩ [[1], [2]]
      rfl rfl (by decide) rfl).2.2.2.1,
    (c6_migration_v1.1 ⟨some 1, none, [], some [[1], [2]]⟩ [[1], [2]]
      rfl rfl (by decide) rfl).2.2.2.2⟩,
   by decide,
   c6_migration_v1.2 ⟨some 1, some (1, 0), [], none⟩
     ⟨some 1, some (1, 0), [], none⟩ 1 (by decide) (by decide)⟩

/-- C7: `open` refuses any schema version above `3` with `-EINVAL`
without touching the database (no downgrade is attempted), and whenever
`open` succeeds the on-disk schema version is `3`. -/
theorem c7_open_version_gate :
    (∀ db : DB, 3 < queryVersion db →
      sqlite_prepare_dbh db = (-22, db, none)) ∧
    (∀ db : DB, (sqlite_prepare_dbh db).1 = 0 →
      queryVersion (sqlite_prepare_dbh db).2.1 = 3) := by
  constructor
  · intro db hgt
    have h3 : ¬queryVersion db = 3 := by omega
    have h2 : ¬queryVersion db = 2 := by omega
    have h1 : ¬queryVersion db = 1 := by omega
    have h0 : ¬queryVersion db = 0 := by omega
    have hstep : sqlite_prepare_dbh_step db = (-22, db) := by
      unfold sqlite_prepare_dbh_step
      rw [if_neg h3, if_neg h2, if_neg h1, if_neg h0]
    unfold sqlite_prepare_dbh
    rw [hstep]
    norm_num
  · intro db hok
    unfold sqlite_prepare_dbh at hok ⊢
    by_cases hs : (sqlite_prepare_dbh_step db).1 = 0
    · rw [if_pos hs] at hok ⊢
      cases hg : sqlite_startup_query_grace (sqlite_prepare_dbh_step db).2
        with
      | none =>
          rw [hg] at hok
          norm_num at hok
      | some stm =>
          exact prepare_step_ok_version db hs
    · rw [if_neg hs] at hok
      exact absurd hok hs

/-- Witness for C7: a version-4 database is refused unchanged with
`-EINVAL`; opening the freshly initialized database succeeds with
on-disk version `3`. -/
theorem c7_open_version_gate_witness :
    (3 < queryVersion ⟨some 4, some (1, 0), [(1, [])], none⟩ ∧
     sqlite_prepare_dbh ⟨some 4, some (1, 0), [(1, [])], none⟩ =
       (-22, ⟨some 4, some (1, 0), [(1, [])], none⟩, none)) ∧
    ((sqlite_prepare_dbh dbInit).1 = 0 ∧
     queryVersion (sqlite_prepare_dbh dbInit).2.1 = 3) :=
  ⟨⟨by decide,
    c7_open_version_gate.1 ⟨some 4, some (1, 0), [(1, [])], none⟩
      (by decide)⟩,
   ⟨by decide, c7_open_version_gate.2 dbInit (by decide)⟩⟩

/-- C8 counterexample: in grace at `(2, 1)` with one client recorded in
the recovery bucket, `sqlite_iterate_recovery` invokes the callback once
(the invocation list has length `1`) but returns `0`, not the count of
entries. -/
theorem c8_counterexample :
    (sqlite_iterate_recovery ⟨2, 1⟩
      ⟨some 3, some (2, 1), [(2, []), (1, [[7]])], none⟩).2.length = 1 ∧
    (sqlite_iterate_recovery ⟨2, 1⟩
      ⟨some 3, some (2, 1), [(2, []), (1, [[7]])], none⟩).1 = 0 ∧
    (sqlite_iterate_recovery ⟨2, 1⟩
        ⟨some 3, some (2, 1), [(2, []), (1, [[7]])], none⟩).1 ≠
      ((sqlite_iterate_recovery ⟨2, 1⟩
        ⟨some 3, some (2, 1), [(2, []), (1, [[7]])],
          none⟩).2.length : Int) := by
  decide

/-- C8 (amended): `iterate_recovery` returns `-EINVAL` (InvalidState)
with no callback invocations when `recovery_epoch == 0`; otherwise, when
the `rec-<recovery_epoch>` bucket exists, it invokes the callback once
per client id in the bucket, in order, and returns ok (`0`) — not the
count; in particular on an empty bucket the callback runs zero times and
the result is ok. -/
theorem c8_iterate_recovery (st : MemState) (db : DB) :
    (st.recovery_epoch = 0 → sqlite_iterate_recovery st db = (-22, [])) ∧
    (∀ b, st.recovery_epoch ≠ 0 →
      findBucket db.buckets st.recovery_epoch = some b →
      sqlite_iterate_recovery st db = (0, b)) := by
  constructor
  · intro h0
    unfold sqlite_iterate_recovery
    rw [if_pos h0]
  · intro b hne hb
    unfold sqlite_iterate_recovery
    rw [if_neg hne]
    simp only [hb]

/-- Witness for C8: not in grace yields `-EINVAL` with no invocations;
in grace, both a singleton and an empty recovery bucket are walked and
return ok. -/
theorem c8_iterate_recovery_witness :
    sqlite_iterate_recovery initState dbInit = (-22, []) ∧
    sqlite_iterate_recovery ⟨2, 1⟩
      ⟨some 3, some (2, 1), [(2, []), (1, [[7]])], none⟩ = (0, [[7]]) ∧
    sqlite_iterate_recovery ⟨2, 1⟩
      ⟨some 3, some (2, 1), [(2, []), (1, [])], none⟩ = (0, []) :=
  ⟨(c8_iterate_recovery initState dbInit).1 rfl,
   (c8_iterate_recovery ⟨2, 1⟩
     ⟨some 3, some (2, 1), [(2, []), (1, [[7]])], none⟩).2 [[7]]
     (by decide) (by decide),
   (c8_iterate_recovery ⟨2, 1⟩
     ⟨some 3, some (2, 1), [(2, []), (1, [])], none⟩).2 []
     (by decide) (by decide)⟩
